import Mathlib

/-!
Verification of the Streamlit research-assistant UI (`src/Streamlit_app.py`).

The renderer is embedded shallowly: the Streamlit output calls
(`st.success`, `st.warning`, `st.info`, `st.error`, `st.write`, `st.markdown`,
`st.divider`, `st.expander`) become constructors of an output type, and the
body of `main` that reacts to a form submission becomes a pure function from
the submission state, the (abstract) research service, and two clock readings
to the list of calls made to the service and the list of rendered outputs.
-/

namespace ResearchAssistantUI

/-- A paper record as consumed by the renderer (the fields of `paper` read in
`main`).  `relevance_score` is modelled as an integer, `year` as the string it
is interpolated into. -/
structure PaperResult where
  title : String
  authors : List String
  journal : String
  year : String
  relevance_score : Int
  relevance_reason : String
  abstract : String
  pubmed_url : String
deriving DecidableEq

/-- The visual kind of a message widget. -/
inductive MsgKind where
  | success
  | warning
  | info
  | error
  | write
  | markdown
  | divider
deriving DecidableEq

/-- One Streamlit message widget emitted by the renderer. -/
inductive Msg where
  | success (s : String)
  | warning (s : String)
  | info (s : String)
  | error (s : String)
  | write (s : String)
  | markdown (s : String)
  | divider
deriving DecidableEq

/-- The kind of a message widget, forgetting its text. -/
def Msg.kind : Msg → MsgKind
  | .success _ => .success
  | .warning _ => .warning
  | .info _ => .info
  | .error _ => .error
  | .write _ => .write
  | .markdown _ => .markdown
  | .divider => .divider

/-- A top-level rendered item: either a bare message or one `st.expander`
section with its title, its `expanded` flag and its body. -/
inductive Output where
  | msg (m : Msg)
  | sect (title : String) (expanded : Bool) (body : List Msg)
deriving DecidableEq

/-- Whether a rendered item is an expander section. -/
def Output.isSect : Output → Bool
  | .sect _ _ _ => true
  | .msg _ => false

/-- Whether a rendered item is an expander section with `expanded = true`. -/
def Output.isExpandedSect : Output → Bool
  | .sect _ e _ => e
  | .msg _ => false

/-- Number of expander sections among the rendered items. -/
def numSections (outs : List Output) : Nat :=
  outs.countP Output.isSect

/-- Number of expander sections rendered expanded. -/
def numExpanded (outs : List Output) : Nat :=
  outs.countP Output.isExpandedSect

/-- The colour-coded relevance badge:
`if score >= 8: st.success(...) elif score >= 6: st.warning(...) else: st.info(...)`. -/
def scoreBadge (score : Int) : Msg :=
  if score ≥ 8 then .success ("Relevance: " ++ toString score ++ "/10")
  else if score ≥ 6 then .warning ("Relevance: " ++ toString score ++ "/10")
  else .info ("Relevance: " ++ toString score ++ "/10")

/-- The body of one paper's expander, in emission order. -/
def renderPaperBody (p : PaperResult) : List Msg :=
  [ .write ("**Authors:** " ++ String.intercalate ", " (p.authors.take 5))
  , .write ("**Journal:** " ++ p.journal ++ " (" ++ p.year ++ ")")
  , scoreBadge p.relevance_score
  , .write ("**Why relevant:** " ++ p.relevance_reason)
  , .write ("**Abstract:** " ++ p.abstract)
  , .markdown ("[📖 View on PubMed](" ++ p.pubmed_url ++ ")")
  , .divider ]

/-- One paper's expander: title `f"{i}. {paper.title}"`, `expanded=(i <= 3)`,
where `i` is the 1-based index from `enumerate(results, 1)`. -/
def renderPaper (i : Nat) (p : PaperResult) : Output :=
  .sect (toString i ++ ". " ++ p.title) (decide (i ≤ 3)) (renderPaperBody p)

/-- `for i, paper in enumerate(results, 1): ...` — papers in received order,
1-indexed. -/
def renderPapers (results : List PaperResult) : List Output :=
  (List.enumFrom 1 results).map (fun ip => renderPaper ip.1 ip.2)

/-- Round a rational to one decimal place (the value printed by `{x:.1f}`). -/
def round1 (x : ℚ) : ℚ :=
  ((round (x * 10) : ℤ) : ℚ) / 10

/-- Render a rational to one decimal place, as `{x:.1f}` does (ties are
modelled by `round`). -/
def fmt1 (x : ℚ) : String :=
  let n : Int := round (x * 10)
  (if n < 0 then "-" else "") ++ toString (n.natAbs / 10) ++ "." ++ toString (n.natAbs % 10)

/-- `f"Found {len(results)} relevant papers in {time_taken:.1f} seconds"`. -/
def successMessage (n : Nat) (t : ℚ) : String :=
  "Found " ++ toString n ++ " relevant papers in " ++ fmt1 t ++ " seconds"

/-- `st.warning` text for an empty result list. -/
def noPapersWarning : String :=
  "No papers found. Try rephrasing your question or using different keywords."

/-- `st.warning` text for an empty question. -/
def emptyQuestionWarning : String :=
  "Please enter a research question!"

/-- The remediation hint written after the error message. -/
def apiKeyHint : String :=
  "Please check your API keys and try again."

/-- The research service as seen through `run_search`: it either returns a
list of papers or raises an exception carrying a message string. -/
def Service : Type :=
  String → Nat → Except String (List PaperResult)

/-- What one submission produced: the calls made to the service (question and
`max_papers`, in order) and the rendered outputs. -/
structure RenderResult where
  calls : List (String × Nat)
  outputs : List Output
deriving DecidableEq

/-- The submission-handling part of `main` (`if submitted and question: ...
elif submitted and not question: ...`).  Python string truthiness makes the
first guard `question != ""`.  `t0` and `t1` are the two `time.time()`
readings taken around the service call. -/
def processSearch (submitted : Bool) (question : String) (max_papers : Nat)
    (service : Service) (t0 t1 : ℚ) : RenderResult :=
  if submitted && !(question == "") then
    match service question max_papers with
    | .ok results =>
        if results.isEmpty then
          ⟨[(question, max_papers)], [.msg (.warning noPapersWarning)]⟩
        else
          ⟨[(question, max_papers)],
            .msg (.success (successMessage results.length (t1 - t0))) :: renderPapers results⟩
    | .error e =>
        ⟨[(question, max_papers)],
          [.msg (.error ("Error: " ++ e)), .msg (.write apiKeyHint)]⟩
  else if submitted && (question == "") then
    ⟨[], [.msg (.warning emptyQuestionWarning)]⟩
  else
    ⟨[], []⟩

/-- The options of the `max_papers` selectbox. -/
def maxPapersOptions : List Nat := [3, 5, 10, 15]

/-- `index=1`: the default selection's position. -/
def maxPapersDefaultIndex : Nat := 1

/-- The selectbox yields exactly the option at the chosen position. -/
def selectMaxPapers (i : Fin maxPapersOptions.length) : Nat :=
  maxPapersOptions.get i

end ResearchAssistantUI

namespace ResearchAssistantUI

/-- A concrete paper used to instantiate theorems with hypotheses. -/
def samplePaper (t : String) (s : Int) : PaperResult :=
  ⟨t, ["A1", "A2", "A3", "A4", "A5", "A6", "A7"], "J", "2024", s, "reason", "abs", "url"⟩

/-- A concrete four-paper result list. -/
def sampleResults : List PaperResult :=
  [samplePaper "P1" 9, samplePaper "P2" 7, samplePaper "P3" 4, samplePaper "P4" 8]

/-- A service that always succeeds with `sampleResults`. -/
def sampleService : Service := fun _ _ => Except.ok sampleResults

/-- A service that always raises `Invalid API key`. -/
def failingService : Service := fun _ _ => Except.error "Invalid API key"

/-- A service that always succeeds with no papers. -/
def emptyService : Service := fun _ _ => Except.ok []

/-- C1: the relevance tier is a three-way threshold classification of
`relevance_score`: score ≥ 8 ↦ success, 6 ≤ score < 8 ↦ warning,
score < 6 ↦ info; in particular 9 ↦ success, 7 ↦ warning, 4 ↦ info, and the
boundaries 8 ↦ success and 6 ↦ warning. -/
theorem relevance_tier_thresholds :
    (∀ s : Int,
      ((scoreBadge s).kind = MsgKind.success ↔ 8 ≤ s)
      ∧ ((scoreBadge s).kind = MsgKind.warning ↔ 6 ≤ s ∧ s < 8)
      ∧ ((scoreBadge s).kind = MsgKind.info ↔ s < 6))
    ∧ (scoreBadge 9).kind = MsgKind.success
    ∧ (scoreBadge 7).kind = MsgKind.warning
    ∧ (scoreBadge 4).kind = MsgKind.info
    ∧ (scoreBadge 8).kind = MsgKind.success
    ∧ (scoreBadge 6).kind = MsgKind.warning := by
  refine ⟨fun s => ?_, by decide, by decide, by decide, by decide, by decide⟩
  unfold scoreBadge
  split_ifs with h1 h2 <;>
    refine ⟨?_, ?_, ?_⟩ <;> simp [Msg.kind] <;> omega

/-- C2 counterexample: a score greater than 10 — outside 0–10 — is classified
into the `success` (high) tier, not the `info` (low) tier as claimed. -/
theorem high_out_of_range_score_is_success :
    (scoreBadge 11).kind = MsgKind.success ∧ (scoreBadge 11).kind ≠ MsgKind.info := by
  decide

/-- C2 (amended): scores are not validated; a negative score falls into the
`info` (low) tier by default comparison semantics, while a score greater
than 10 falls into the `success` (high) tier. -/
theorem out_of_range_score_tiers (s : Int) :
    (s < 0 → (scoreBadge s).kind = MsgKind.info)
    ∧ (10 < s → (scoreBadge s).kind = MsgKind.success) := by
  constructor <;> intro h <;> unfold scoreBadge <;>
    split_ifs with h1 h2 <;> first | rfl | omega

/-- Witness for C2 (amended) at scores `-1` and `11`. -/
theorem out_of_range_score_tiers_witness :
    (scoreBadge (-1)).kind = MsgKind.info ∧ (scoreBadge 11).kind = MsgKind.success :=
  ⟨(out_of_range_score_tiers (-1)).1 (by decide),
   (out_of_range_score_tiers 11).2 (by decide)⟩

/-- C3: submitting the empty question makes no service call and renders
exactly the validation warning. -/
theorem empty_question_rejected (mp : Nat) (service : Service) (t0 t1 : ℚ) :
    (processSearch true "" mp service t0 t1).calls = []
    ∧ (processSearch true "" mp service t0 t1).outputs
        = [Output.msg (Msg.warning emptyQuestionWarning)] := by
  constructor <;> rfl

/-- C9: the `max_papers` selector offers exactly the options 3, 5, 10, 15,
defaults to 5 (`index=1`), and any selection yields one of these four
values. -/
theorem max_papers_selector :
    maxPapersOptions = [3, 5, 10, 15]
    ∧ maxPapersOptions.get? maxPapersDefaultIndex = some 5
    ∧ ∀ i : Fin maxPapersOptions.length,
        selectMaxPapers i = 3 ∨ selectMaxPapers i = 5
          ∨ selectMaxPapers i = 10 ∨ selectMaxPapers i = 15 := by
  refine ⟨rfl, rfl, ?_⟩
  decide

/-- Every item produced by `renderPapers` is an expander section, so no bare
message belongs to it. -/
theorem msg_not_mem_renderPapers (m : Msg) (results : List PaperResult) :
    Output.msg m ∉ renderPapers results := by
  intro hmem
  rcases List.mem_map.mp hmem with ⟨ip, _, hip⟩
  simp [renderPaper] at hip

/-- C4: an exception from the service call is caught; the renderer shows an
error message carrying the exception text, then the credentials hint, and
renders no paper sections. -/
theorem service_error_display (q e : String) (mp : Nat) (service : Service)
    (t0 t1 : ℚ) (hq : q ≠ "") (hs : service q mp = Except.error e) :
    (processSearch true q mp service t0 t1).outputs
      = [Output.msg (Msg.error ("Error: " ++ e)), Output.msg (Msg.write apiKeyHint)]
    ∧ numSections (processSearch true q mp service t0 t1).outputs = 0 := by
  have hq' : (q == "") = false := beq_eq_false_iff_ne.mpr hq
  refine ⟨?_, ?_⟩ <;>
    simp [processSearch, hq', hs, numSections, Output.isSect]

/-- Witness for C4: a service raising `Invalid API key` on a concrete
submission. -/
theorem service_error_display_witness :
    (processSearch true "q" 5 failingService 0 1).outputs
      = [Output.msg (Msg.error ("Error: " ++ "Invalid API key")),
         Output.msg (Msg.write apiKeyHint)]
    ∧ numSections (processSearch true "q" 5 failingService 0 1).outputs = 0 :=
  service_error_display "q" "Invalid API key" 5 failingService 0 1 (by decide) rfl

/-- C5: an empty result list yields exactly the `no papers found` warning —
no paper sections and no success summary. -/
theorem empty_results_display (q : String) (mp : Nat) (service : Service)
    (t0 t1 : ℚ) (hq : q ≠ "") (hs : service q mp = Except.ok []) :
    (processSearch true q mp service t0 t1).outputs
      = [Output.msg (Msg.warning noPapersWarning)]
    ∧ numSections (processSearch true q mp service t0 t1).outputs = 0
    ∧ ∀ m, Output.msg (Msg.success m) ∉ (processSearch true q mp service t0 t1).outputs := by
  have hq' : (q == "") = false := beq_eq_false_iff_ne.mpr hq
  refine ⟨?_, ?_, ?_⟩ <;>
    simp [processSearch, hq', hs, numSections, Output.isSect]

/-- Witness for C5: a concrete submission against a service returning no
papers. -/
theorem empty_results_display_witness :
    (processSearch true "q" 5 emptyService 0 1).outputs
      = [Output.msg (Msg.warning noPapersWarning)]
    ∧ numSections (processSearch true "q" 5 emptyService 0 1).outputs = 0
    ∧ ∀ m, Output.msg (Msg.success m) ∉ (processSearch true "q" 5 emptyService 0 1).outputs :=
  empty_results_display "q" 5 emptyService 0 1 (by decide) rfl

/-- C10: any non-empty question — including a whitespace-only one — passes the
truthiness check: the service is invoked once with that question verbatim and
the empty-question warning is never rendered. -/
theorem nonempty_question_calls_service (q : String) (mp : Nat)
    (service : Service) (t0 t1 : ℚ) (hq : q ≠ "") :
    (processSearch true q mp service t0 t1).calls = [(q, mp)]
    ∧ Output.msg (Msg.warning emptyQuestionWarning)
        ∉ (processSearch true q mp service t0 t1).outputs := by
  have hq' : (q == "") = false := beq_eq_false_iff_ne.mpr hq
  cases h : service q mp with
  | error e =>
      refine ⟨?_, ?_⟩ <;> simp [processSearch, hq', h]
  | ok results =>
      by_cases hr : results.isEmpty
      · refine ⟨?_, ?_⟩ <;>
          simp [processSearch, hq', h, hr, emptyQuestionWarning, noPapersWarning]
      · refine ⟨by simp [processSearch, hq', h, hr], ?_⟩
        simp only [processSearch, hq', h, hr]
        intro hmem
        rcases List.mem_cons.mp hmem with heq | hmem2
        · exact absurd heq (by simp)
        · exact msg_not_mem_renderPapers _ _ hmem2

/-- Witness for C10: a single-space question calls the service verbatim and
does not trigger the validation warning. -/
theorem nonempty_question_calls_service_witness :
    (processSearch true " " 5 sampleService 0 1).calls = [(" ", 5)]
    ∧ Output.msg (Msg.warning emptyQuestionWarning)
        ∉ (processSearch true " " 5 sampleService 0 1).outputs :=
  nonempty_question_calls_service " " 5 sampleService 0 1 (by decide)

/-- C8: a rendered paper's authors line shows exactly the first
`min(5, length)` authors, joined by a comma and space, in original order:
position `j` shows author `j` when `j < 5`, and nothing beyond the fifth. -/
theorem authors_display (p : PaperResult) :
    (renderPaperBody p).head?
      = some (Msg.write ("**Authors:** " ++ String.intercalate ", " (p.authors.take 5)))
    ∧ (p.authors.take 5).length = min 5 p.authors.length
    ∧ ∀ j : Nat, (p.authors.take 5)[j]? = if j < 5 then p.authors[j]? else none := by
  refine ⟨rfl, by simp, fun j => List.getElem?_take⟩

/-- Expanded-section count of the enumerated rendering, generalised over the
start index: with `enumerate` starting at `k`, `min length (4 - k)` sections
carry `expanded = true`. -/
theorem countExpanded_enumFrom (k : Nat) (l : List PaperResult) :
    (((List.enumFrom k l).map fun ip => renderPaper ip.1 ip.2).countP
        Output.isExpandedSect) = min l.length (4 - k) := by
  induction l generalizing k with
  | nil => simp
  | cons p l ih =>
      simp only [List.enumFrom_cons, List.map_cons, List.countP_cons, ih (k + 1),
        List.length_cons]
      by_cases hk : k ≤ 3 <;>
        simp [renderPaper, Output.isExpandedSect, hk] <;> omega

/-- Exactly `min N 3` of the `N` rendered sections are expanded. -/
theorem numExpanded_renderPapers (results : List PaperResult) :
    numExpanded (renderPapers results) = min results.length 3 :=
  countExpanded_enumFrom 1 results

/-- C6: a non-empty result list of length `N` renders, after the success
summary, `N` collapsible sections in received order, the `j`-th titled
`"{j+1}. {title}"` with 1-based index, expanded exactly when `j + 1 ≤ 3`;
so `min N 3` are expanded and the rest collapsed. -/
theorem results_sections_layout (q : String) (mp : Nat) (service : Service)
    (t0 t1 : ℚ) (results : List PaperResult)
    (hq : q ≠ "") (hs : service q mp = Except.ok results) (hne : results ≠ []) :
    (processSearch true q mp service t0 t1).outputs
      = Output.msg (Msg.success (successMessage results.length (t1 - t0)))
          :: renderPapers results
    ∧ (renderPapers results).length = results.length
    ∧ (∀ j : Nat, ∀ p : PaperResult, results[j]? = some p →
        (renderPapers results)[j]?
          = some (Output.sect (toString (j + 1) ++ ". " ++ p.title)
              (decide (j + 1 ≤ 3)) (renderPaperBody p)))
    ∧ numExpanded (renderPapers results) = min results.length 3 := by
  have hq' : (q == "") = false := beq_eq_false_iff_ne.mpr hq
  have hr : results.isEmpty = false := by simpa [List.isEmpty_iff] using hne
  refine ⟨by simp [processSearch, hq', hs, hr], by simp [renderPapers], ?_,
    numExpanded_renderPapers results⟩
  intro j p hjp
  simp [renderPapers, List.getElem?_enumFrom, hjp, renderPaper, Nat.add_comm 1 j]

/-- Witness for C6: four concrete papers — sections 1 to 4, the first three
expanded, the fourth collapsed. -/
theorem results_sections_layout_witness :
    (processSearch true "q" 5 sampleService 0 2).outputs
      = Output.msg (Msg.success (successMessage sampleResults.length (2 - 0)))
          :: renderPapers sampleResults
    ∧ (renderPapers sampleResults).length = sampleResults.length
    ∧ (∀ j : Nat, ∀ p : PaperResult, sampleResults[j]? = some p →
        (renderPapers sampleResults)[j]?
          = some (Output.sect (toString (j + 1) ++ ". " ++ p.title)
              (decide (j + 1 ≤ 3)) (renderPaperBody p)))
    ∧ numExpanded (renderPapers sampleResults) = min sampleResults.length 3 :=
  results_sections_layout "q" 5 sampleService 0 2 sampleResults (by decide) rfl (by decide)

/-- C7: with a non-empty result list the renderer leads with a success message
carrying the paper count and the elapsed service-call duration `t1 - t0`
formatted to one decimal place; when the second clock reading is not below the
first, the displayed duration is nonnegative. -/
theorem success_summary_time (q : String) (mp : Nat) (service : Service)
    (t0 t1 : ℚ) (results : List PaperResult)
    (hq : q ≠ "") (hs : service q mp = Except.ok results) (hne : results ≠ [])
    (ht : t0 ≤ t1) :
    (processSearch true q mp service t0 t1).outputs.head?
      = some (Output.msg (Msg.success
          ("Found " ++ toString results.length ++ " relevant papers in "
            ++ fmt1 (t1 - t0) ++ " seconds")))
    ∧ 0 ≤ round1 (t1 - t0) := by
  have hq' : (q == "") = false := beq_eq_false_iff_ne.mpr hq
  have hr : results.isEmpty = false := by simpa [List.isEmpty_iff] using hne
  refine ⟨by simp [processSearch, hq', hs, hr, successMessage], ?_⟩
  have h0 : (0 : ℚ) ≤ (t1 - t0) * 10 :=
    mul_nonneg (sub_nonneg.mpr ht) (by norm_num)
  have h1 : (0 : ℤ) ≤ round ((t1 - t0) * 10) := by
    rw [round_eq]
    exact Int.floor_nonneg.mpr (by linarith)
  unfold round1
  have h2 : (0 : ℚ) ≤ ((round ((t1 - t0) * 10) : ℤ) : ℚ) := by
    exact_mod_cast h1
  exact div_nonneg h2 (by norm_num)

/-- Witness for C7: a concrete two-second call over four papers. -/
theorem success_summary_time_witness :
    (processSearch true "q" 5 sampleService 0 2).outputs.head?
      = some (Output.msg (Msg.success
          ("Found " ++ toString sampleResults.length ++ " relevant papers in "
            ++ fmt1 (2 - 0) ++ " seconds")))
    ∧ 0 ≤ round1 (2 - 0) :=
  success_summary_time "q" 5 sampleService 0 2 sampleResults (by decide) rfl
    (by decide) (by norm_num)

end ResearchAssistantUI
